import Mathlib

/-!
Verification of the funcX endpoint lifecycle manager
(`funcx_endpoint/endpoint/endpoint.py`).

The Python module manages named "endpoints": each endpoint owns a directory
holding a configuration file (`config.py`), a registration record
(`endpoint.json`) and a pidfile (`daemon.pid`).  We shallowly embed the
operations `check_pidfile`, `start_endpoint`, `stop_endpoint`,
`restart_endpoint`, `list_endpoints`, `delete_endpoint`,
`register_endpoint` (with its retry decorator) and `register_with_hub`
as pure functions over an explicit filesystem / process-table state.
OS-level nondeterminism (which signal delivery raises `OSError`, whether the
daemon removes its own pidfile during the wait windows, the pid the OS
assigns to a fresh daemon, the value of `uuid.uuid4()`) is passed in as
explicit oracle parameters.
-/

namespace FuncxEndpoint

/-- The record returned by `check_pidfile`: a Python dict
`{"exists": 0|1, "active": 0|1}`.  We keep the integer coding of the
source (the callers test these fields by truthiness). -/
structure PidRecord where
  pexists : Nat
  pactive : Nat
  deriving DecidableEq, Repr

/-- The process table: a list of (pid, process name) pairs, one entry per
live process.  `psutil.Process(pid)` raises `NoSuchProcess` exactly when
`pid` has no entry; `proc.name()` is the associated name. -/
def procName (procs : List (Nat × String)) (pid : Nat) : Option String :=
  (procs.find? (fun q => q.1 == pid)).map (fun q => q.2)

/-- The default `match_name` argument of `check_pidfile`
(the recognizable name of the daemonized endpoint process). -/
def funcx_process_name : String := "funcx-endpoint"

/-- Embedding of `check_pidfile(filepath, match_name, ...)`.  The pidfile
is `none` when the file does not exist and `some pid` when it exists and
holds the decimal pid `pid`.  Returns `{exists:0,active:0}` when the file
is missing; otherwise `proc_found` is set exactly when a live process with
that pid exists and its name equals `match_name`, giving
`{exists:1,active:1}`, and `{exists:1,active:0}` otherwise. -/
def check_pidfile (pidfile : Option Nat) (procs : List (Nat × String))
    (match_name : String) : PidRecord :=
  match pidfile with
  | none => ⟨0, 0⟩
  | some older_pid =>
    let proc_found :=
      match procName procs older_pid with
      | some n => n == match_name
      | none => false
    if proc_found then ⟨1, 1⟩ else ⟨1, 0⟩

/-- The registration record persisted to `endpoint.json`: the fields the
lifecycle code actually reads (`endpoint_id`, `address`, `client_ports`). -/
structure RegInfo where
  endpoint_id : String
  address : String
  client_ports : String
  deriving DecidableEq, Repr

/-- The on-disk state of one endpoint directory under `~/.funcx/<name>/`:
whether the directory exists, whether `config.py` exists, the parsed
content of `endpoint.json` when present, and the pid recorded in
`daemon.pid` when present. -/
structure EpState where
  dirExists : Bool
  configExists : Bool
  regRecord : Option RegInfo
  pidfile : Option Nat
  deriving DecidableEq, Repr

/-- One endpoint directory together with the OS process table. -/
structure World where
  ep : EpState
  procs : List (Nat × String)
  deriving DecidableEq, Repr

/-- The identity determination at the top of `start_endpoint`
(lines 297-304): when `endpoint.json` exists its `endpoint_id` is reused;
`elif not endpoint_uuid` (falsy: absent or empty) a fresh `uuid.uuid4()`
is minted; otherwise the caller-supplied uuid is kept. -/
def determine_uuid (regRecord : Option RegInfo)
    (endpoint_uuid : Option String) (freshUuid : String) : String :=
  match regRecord with
  | some reg_info => reg_info.endpoint_id
  | none =>
    match endpoint_uuid with
    | some u => if u = "" then freshUuid else u
    | none => freshUuid

/-- Observable outcome of an invocation of `start_endpoint`:
it prints guidance and returns when the directory is missing, returns
without starting when the pidfile check refuses, or enters the daemon
context (the supervision loop) with the determined uuid. -/
inductive StartResult where
  | notConfigured
  | refused (uuid : String)
  | started (uuid : String)
  deriving DecidableEq, Repr

/-- The uuid determined by a start invocation, when it got that far. -/
def StartResult.uuid? : StartResult → Option String
  | .notConfigured => none
  | .refused u => some u
  | .started u => some u

/-- Embedding of `start_endpoint(name, endpoint_uuid)`.  Oracles:
`freshUuid` is the value `uuid.uuid4()` would mint, `newPid` the pid the
OS assigns to the daemonized process.  Following the source: return if
the endpoint directory does not exist; determine the uuid (persisted
record first, then caller, then fresh); return if
`check_pidfile(pid_path)["exists"]` is truthy; otherwise enter the daemon
context, which acquires the pidfile (`daemon.pid := newPid`) and runs the
endpoint process (named `funcx-endpoint`) in the supervision loop. -/
def start_endpoint (w : World) (endpoint_uuid : Option String)
    (freshUuid : String) (newPid : Nat) : StartResult × World :=
  if !w.ep.dirExists then (.notConfigured, w)
  else
    let uuid := determine_uuid w.ep.regRecord endpoint_uuid freshUuid
    if (check_pidfile w.ep.pidfile w.procs funcx_process_name).pexists != 0 then
      (.refused uuid, w)
    else
      (.started uuid,
       { ep := { w.ep with pidfile := some newPid },
         procs := (newPid, funcx_process_name) :: w.procs })

/-- OS-level nondeterminism inside `stop_endpoint`: whether
`os.kill(pid, SIGTERM)` raises `OSError`, whether `os.kill(pid, SIGKILL)`
raises (the process exited during the 0.1s wait), and whether the
signalled daemon removed its own pidfile during the wait windows. -/
structure StopEnv where
  sigtermRaises : Bool
  sigkillRaises : Bool
  daemonCleansPidfile : Bool
  deriving DecidableEq, Repr

/-- Observable outcome of `stop_endpoint`: logged "not active" (no
pidfile), logged "now stopped" (pidfile gone after the signals), silent
normal return (pidfile still present after the signals), `sys.exit(-1)`
from the `OSError` cleanup branch, or an uncaught exception from
`os.remove` on an already-removed pidfile. -/
inductive StopResult where
  | notActive
  | stopped
  | unconfirmed
  | cleanupExit
  | uncaughtError
  deriving DecidableEq, Repr

/-- Process exit code of the stop command for each outcome:
`sys.exit(-1)` on the cleanup branch, 1 for an uncaught exception,
0 for a normal return. -/
def StopResult.exitCode : StopResult → Int
  | .cleanupExit => -1
  | .uncaughtError => 1
  | _ => 0

/-- Whether the outcome terminates the calling Python process (so that
code sequenced after `stop_endpoint(name)` never runs). -/
def StopResult.halts : StopResult → Bool
  | .cleanupExit => true
  | .uncaughtError => true
  | _ => false

/-- Remove a killed pid from the process table. -/
def killProc (procs : List (Nat × String)) (pid : Nat) :
    List (Nat × String) :=
  procs.filter (fun q => q.1 != pid)

/-- Embedding of `stop_endpoint(name)`.  If `daemon.pid` is absent, log
"not active" and return (no state change).  Otherwise read the pid and
signal it: if SIGTERM raises `OSError`, the handler logs a warning,
removes the pidfile and calls `sys.exit(-1)`.  If SIGTERM is delivered
but SIGKILL then raises (the process died in between), the same handler
runs, but `os.remove` itself raises when the dying daemon already removed
the pidfile.  When both signals are delivered the process is killed, and
the final existence check on the pidfile decides between the logged
success and the silent fall-through. -/
def stop_endpoint (w : World) (env : StopEnv) : StopResult × World :=
  match w.ep.pidfile with
  | none => (.notActive, w)
  | some pid =>
    if env.sigtermRaises then
      (.cleanupExit, { w with ep := { w.ep with pidfile := none } })
    else if env.sigkillRaises then
      if env.daemonCleansPidfile then
        (.uncaughtError,
         { ep := { w.ep with pidfile := none },
           procs := killProc w.procs pid })
      else
        (.cleanupExit,
         { ep := { w.ep with pidfile := none },
           procs := killProc w.procs pid })
    else
      if env.daemonCleansPidfile then
        (.stopped,
         { ep := { w.ep with pidfile := none },
           procs := killProc w.procs pid })
      else
        (.unconfirmed, { w with procs := killProc w.procs pid })

/-- Embedding of `restart_endpoint(name)`: the body is literally
`stop_endpoint(name)` followed by `start_endpoint(name)` (the latter with
its default `endpoint_uuid=None`).  When stop terminates the process
(`sys.exit` or an uncaught exception), start never runs. -/
def restart_endpoint (w : World) (env : StopEnv) (freshUuid : String)
    (newPid : Nat) : StopResult × Option StartResult × World :=
  let r := stop_endpoint w env
  if r.1.halts then (r.1, none, r.2)
  else
    let s := start_endpoint r.2 none freshUuid newPid
    (r.1, some s.1, s.2)

/-- Modelled from the spec: the sequential composition "stop(name)
followed by start(name)", written independently of `restart_endpoint`
for the refinement comparison of C8.  Stop runs first; if it terminated
the process, start never runs; otherwise start runs on the state stop
left behind, with no caller-supplied uuid. -/
def stop_then_start (w : World) (env : StopEnv) (freshUuid : String)
    (newPid : Nat) : StopResult × Option StartResult × World :=
  match stop_endpoint w env with
  | (stopRes, w1) =>
    if stopRes.halts then (stopRes, none, w1)
    else
      match start_endpoint w1 none freshUuid newPid with
      | (startRes, w2) => (stopRes, some startRes, w2)

/-- The whole `~/.funcx` tree (one entry per endpoint directory name)
with the OS process table. -/
structure Sys where
  eps : List (String × EpState)
  procs : List (Nat × String)
  deriving DecidableEq, Repr

/-- A missing endpoint directory: nothing on disk. -/
def emptyEp : EpState := ⟨false, false, none, none⟩

/-- Read the state of the directory `~/.funcx/<name>`. -/
def readEp (eps : List (String × EpState)) (name : String) : EpState :=
  match eps.find? (fun e => e.1 == name) with
  | some e => e.2
  | none => emptyEp

/-- Overwrite the state of the directory `~/.funcx/<name>`. -/
def writeEp (eps : List (String × EpState)) (name : String)
    (st : EpState) : List (String × EpState) :=
  eps.map (fun e => if e.1 == name then (e.1, st) else e)

/-- `shutil.rmtree` of the endpoint directory: the name disappears from
the tree. -/
def rmtree (eps : List (String × EpState)) (name : String) :
    List (String × EpState) :=
  eps.filter (fun e => e.1 != name)

/-- The status column computed by `list_endpoints` for one endpoint
directory: `Initialized` when `endpoint.json` is absent, else `Active`
or `Inactive` by the truthiness of `check_pidfile(daemon.pid)["active"]`
(with the default match name). -/
def endpointStatus (s : EpState) (procs : List (Nat × String)) : String :=
  match s.regRecord with
  | none => "Initialized"
  | some _ =>
    if (check_pidfile s.pidfile procs funcx_process_name).pactive != 0
    then "Active" else "Inactive"

/-- The Endpoint ID column of `list_endpoints`: `None` until
`endpoint.json` exists, else its `endpoint_id` field. -/
def endpointId (s : EpState) : Option String :=
  s.regRecord.map (fun info => info.endpoint_id)

/-- Embedding of `list_endpoints()`: one table row
(name, status, endpoint id) per directory matching the glob
`~/.funcx/*/config.py`. -/
def list_endpoints (sys : Sys) : List (String × String × Option String) :=
  (sys.eps.filter (fun e => e.2.configExists)).map
    (fun e => (e.1, endpointStatus e.2 sys.procs, endpointId e.2))

/-- Observable outcome of `delete_endpoint`. -/
inductive DeleteResult where
  | aborted
  | deleted
  | exitedDuringStop
  deriving DecidableEq, Repr

/-- Embedding of `delete_endpoint(name, autoconfirm)`.  Without `-y`,
`typer.confirm(abort=True)` aborts on a negative answer.  `active` is
the existence of `daemon.pid`; when active, `stop_endpoint(name)` runs
first (and may terminate the process, in which case `rmtree` never
runs); finally `shutil.rmtree` removes the whole endpoint directory. -/
def delete_endpoint (sys : Sys) (name : String) (env : StopEnv)
    (confirmAnswer : Bool) (autoconfirm : Bool) : DeleteResult × Sys :=
  if !autoconfirm && !confirmAnswer then (.aborted, sys)
  else
    let ep := readEp sys.eps name
    if ep.pidfile.isSome then
      let r := stop_endpoint ⟨ep, sys.procs⟩ env
      if r.1.halts then
        (.exitedDuringStop, ⟨writeEp sys.eps name r.2.ep, r.2.procs⟩)
      else
        (.deleted, ⟨rmtree sys.eps name, r.2.procs⟩)
    else
      (.deleted, ⟨rmtree sys.eps name, sys.procs⟩)

/-- The response the mock hub produces for the single
`requests.post(address + "/register", ...)` in `register_with_hub`:
either a `ConnectionError` or an HTTP response with a status code, a
reason string and a JSON body. -/
inductive HubResponse where
  | connError
  | resp (status_code : Nat) (reason : String) (body : RegInfo)
  deriving DecidableEq, Repr

/-- Observable outcome of `register_with_hub`. -/
inductive RWHResult where
  | exitedNonZero
  | raisedRegistrationError (reason : String)
  | ok (info : RegInfo)
  deriving DecidableEq, Repr

/-- The fixed pool of mock site addresses `register_with_hub` picks a
pseudo-random placeholder ip from. -/
def mock_sites : List String :=
  ["128.135.112.73", "140.221.69.24", "52.86.208.63",
   "129.114.63.99", "128.219.134.72", "134.79.129.79"]

/-- Embedding of `register_with_hub(endpoint_uuid, endpoint_dir, ...)`,
the mock/debug registration path.  `ip_choice` is the index
`random.choice` picks in `mock_sites`.  On `ConnectionError` it logs
critically and calls `exit(-1)` (no write).  On a non-200 status it
raises `RegistrationError(r.reason)` (no write).  Only on a 200 response
does it write the JSON body to `endpoint.json` and return it. -/
def register_with_hub (response : HubResponse) (ip_choice : Nat)
    (s : EpState) : RWHResult × EpState :=
  let _ip_addr := mock_sites.getD (ip_choice % mock_sites.length) ""
  match response with
  | .connError => (.exitedNonZero, s)
  | .resp status_code reason body =>
    if status_code != 200 then (.raisedRegistrationError reason, s)
    else (.ok body, { s with regRecord := some body })

/-- One attempt of `register_endpoint(funcx_client, ...)` (the body under
the decorator): call `funcx_client.register_endpoint(...)` — an exception
there propagates to the retry wrapper — and on success write the returned
registration info to `endpoint.json` and return it. -/
def register_endpoint (clientCall : Except String RegInfo)
    (s : EpState) : Except String (RegInfo × EpState) :=
  match clientCall with
  | .error e => .error e
  | .ok reg_info => .ok (reg_info, { s with regRecord := some reg_info })

/-- The parameters of the `retry` decorator on `register_endpoint`:
`@retry(delay=5, logger=...)` leaves the library defaults
`exceptions=Exception` (every exception is caught and retried),
`tries=-1` (unbounded) and `backoff=1` (the delay stays fixed). -/
structure RetryPolicy where
  delay : Nat
  tries : Int
  backoff : Nat
  deriving DecidableEq, Repr

/-- The concrete policy `@retry(delay=5, logger=logging.getLogger(...))`
applies to `register_endpoint`. -/
def register_endpoint_retry_policy : RetryPolicy :=
  { delay := 5, tries := -1, backoff := 1 }

/-- The internal loop of the `retry` decorator with an unbounded try
count, made total by fuel: attempt `i`; on success return the value and
the total time slept; on any exception sleep `delay` and move to the next
attempt.  `none` means the fuel ran out before a success (the real loop
would still be running). -/
def retryLoop {E A : Type} (attempts : Nat → Except E A) (delay : Nat) :
    Nat → Nat → Nat → Option (A × Nat)
  | 0, _, _ => none
  | fuel + 1, i, slept =>
    match attempts i with
    | .ok a => some (a, slept)
    | .error _ => retryLoop attempts delay fuel (i + 1) (slept + delay)

/-- `register_endpoint` as actually exported: the body wrapped by the
retry decorator.  `calls j` is the outcome of the j-th call to the
funcx client. -/
def register_endpoint_retried (calls : Nat → Except String RegInfo)
    (s : EpState) (fuel : Nat) : Option ((RegInfo × EpState) × Nat) :=
  retryLoop (fun j => register_endpoint (calls j) s)
    register_endpoint_retry_policy.delay fuel 0 0

/- ------------------------------------------------------------------ -/
/- Helper lemmas                                                       -/
/- ------------------------------------------------------------------ -/

/-- When the pidfile exists, `check_pidfile` always reports `exists=1`,
whatever the process table says. -/
lemma check_pidfile_some_pexists (pid : Nat) (procs : List (Nat × String))
    (nm : String) : (check_pidfile (some pid) procs nm).pexists = 1 := by
  unfold check_pidfile
  cases hn : procName procs pid with
  | none => simp [hn]
  | some n => by_cases he : n = nm <;> simp [hn, he]

/-- On a configured endpoint, a start invocation determines its uuid by
`determine_uuid`, whether it then refuses or starts. -/
lemma start_uuid_eq (w : World) (c : Option String) (f : String) (p : Nat)
    (hdir : w.ep.dirExists = true) :
    (start_endpoint w c f p).1.uuid?
      = some (determine_uuid w.ep.regRecord c f) := by
  unfold start_endpoint
  simp only [hdir, Bool.not_true, Bool.false_eq_true, if_false]
  split <;> rfl

/-- A start invocation never touches the directory flag or the persisted
registration record. -/
lemma start_preserves (w : World) (c : Option String) (f : String)
    (p : Nat) :
    (start_endpoint w c f p).2.ep.dirExists = w.ep.dirExists
    ∧ (start_endpoint w c f p).2.ep.regRecord = w.ep.regRecord := by
  unfold start_endpoint
  by_cases h1 : w.ep.dirExists = true
  · simp only [h1, Bool.not_true, Bool.false_eq_true, if_false]
    split <;> simp [h1]
  · simp [h1]

/-- A freshly daemonized process (its pid at the head of the process
table under the expected name) is reported fully active. -/
lemma check_pidfile_fresh (pid : Nat) (procs : List (Nat × String)) :
    check_pidfile (some pid) ((pid, funcx_process_name) :: procs)
      funcx_process_name = ⟨1, 1⟩ := by
  simp [check_pidfile, procName, List.find?]

/-- The retry loop returns the first successful attempt: if the attempts
before index `k` all raise and attempt `k` succeeds, any sufficient fuel
yields the value of attempt `k`, after `k` sleeps of `delay`. -/
lemma retryLoop_eventually {E A : Type} (attempts : Nat → Except E A)
    (delay : Nat) (a : A) :
    ∀ (k i slept fuel : Nat),
      (∀ j, j < k → ∃ e, attempts (i + j) = .error e) →
      attempts (i + k) = .ok a → k < fuel →
      retryLoop attempts delay fuel i slept
        = some (a, slept + delay * k) := by
  intro k
  induction k with
  | zero =>
    intro i slept fuel _ hok hfuel
    rw [Nat.add_zero] at hok
    cases fuel with
    | zero => omega
    | succ m => simp [retryLoop, hok]
  | succ k ih =>
    intro i slept fuel hfail hok hfuel
    cases fuel with
    | zero => omega
    | succ m =>
      obtain ⟨e, he⟩ := hfail 0 (Nat.succ_pos k)
      rw [Nat.add_zero] at he
      have hrec := ih (i + 1) (slept + delay) m
        (fun j hj => by
          have h := hfail (j + 1) (Nat.succ_lt_succ hj)
          rwa [show i + (j + 1) = i + 1 + j by omega] at h)
        (by rwa [show i + 1 + k = i + (k + 1) by omega])
        (by omega)
      have harith : slept + delay + delay * k = slept + delay * (k + 1) := by
        rw [Nat.mul_succ]; omega
      simp only [retryLoop, he]
      rw [hrec, harith]

/- ------------------------------------------------------------------ -/
/- C3: check_pidfile                                                   -/
/- ------------------------------------------------------------------ -/

/-- C3: for every pidfile path and expected process name, `check_pidfile`
returns `{exists:0,active:0}` when the pidfile does not exist; when it
exists it returns `{exists:1,active:1}` exactly when a live process with
the recorded pid exists and its name equals the expected name, and
`{exists:1,active:0}` otherwise; consequently `exists=0` implies
`active=0` and `active=1` implies `exists=1`. -/
theorem C3_check_pidfile_spec (pidfile : Option Nat)
    (procs : List (Nat × String)) (nm : String) :
    check_pidfile none procs nm = ⟨0, 0⟩
    ∧ (∀ pid, pidfile = some pid →
        (procName procs pid = some nm →
          check_pidfile pidfile procs nm = ⟨1, 1⟩)
        ∧ (procName procs pid ≠ some nm →
          check_pidfile pidfile procs nm = ⟨1, 0⟩))
    ∧ ((check_pidfile pidfile procs nm).pexists = 0 →
        (check_pidfile pidfile procs nm).pactive = 0)
    ∧ ((check_pidfile pidfile procs nm).pactive = 1 →
        (check_pidfile pidfile procs nm).pexists = 1) := by
  refine ⟨rfl, ?_, ?_, ?_⟩
  · intro pid hpf
    subst hpf
    constructor
    · intro h
      simp [check_pidfile, h]
    · intro h
      unfold check_pidfile
      cases hn : procName procs pid with
      | none => simp [hn]
      | some n =>
        have hne : n ≠ nm := fun he => h (he ▸ hn)
        simp [hn, hne]
  · cases pidfile with
    | none => intro; rfl
    | some pid =>
      unfold check_pidfile
      cases hn : procName procs pid with
      | none => simp [hn]
      | some n =>
        by_cases he : n = nm <;> simp [hn, he]
  · cases pidfile with
    | none => intro h; exact absurd h (by simp [check_pidfile])
    | some pid =>
      unfold check_pidfile
      cases hn : procName procs pid with
      | none => simp [hn]
      | some n =>
        by_cases he : n = nm <;> simp [hn, he]

/-- Witness for C3 at concrete inputs: a pidfile recording pid 5 with a
live name-matching process 5 is reported `{exists:1,active:1}`. -/
theorem C3_check_pidfile_spec_witness :
    check_pidfile (some 5) [(5, "funcx-endpoint")] "funcx-endpoint"
      = ⟨1, 1⟩ :=
  ((C3_check_pidfile_spec (some 5) [(5, "funcx-endpoint")]
      "funcx-endpoint").2.1 5 rfl).1 rfl

/- ------------------------------------------------------------------ -/
/- C1: stale pidfile on start                                          -/
/- ------------------------------------------------------------------ -/

/-- C1 counterexample: a configured endpoint whose pidfile records pid 42
with an empty process table (pid 42 is dead, hence stale:
`check_pidfile` reports `active = 0`).  The claim says start must not
refuse here, but `start_endpoint` tests `["exists"]` (line 310) and
returns without starting, leaving the state unchanged. -/
theorem C1_stale_pidfile_counterexample :
    (check_pidfile (some 42) ([] : List (Nat × String))
        funcx_process_name).pactive = 0
    ∧ (check_pidfile (some 42) ([] : List (Nat × String))
        funcx_process_name).pexists = 1
    ∧ start_endpoint ⟨⟨true, true, none, some 42⟩, []⟩ none "fresh-uuid" 99
        = (.refused "fresh-uuid", ⟨⟨true, true, none, some 42⟩, []⟩) :=
  ⟨rfl, rfl, rfl⟩

/-- C1 amended: on a configured endpoint, start refuses (returns without
starting) exactly when the pidfile exists — whether the recorded process
is live or stale — and a fresh start proceeds only when no pidfile
exists. -/
theorem C1_start_refuses_iff_pidfile_exists (w : World)
    (caller : Option String) (fresh : String) (newPid : Nat)
    (hdir : w.ep.dirExists = true) :
    ((start_endpoint w caller fresh newPid).1
        = .refused (determine_uuid w.ep.regRecord caller fresh)
      ↔ w.ep.pidfile.isSome)
    ∧ (w.ep.pidfile.isSome →
        (start_endpoint w caller fresh newPid).2 = w)
    ∧ (w.ep.pidfile = none →
        start_endpoint w caller fresh newPid
          = (.started (determine_uuid w.ep.regRecord caller fresh),
             ⟨{ w.ep with pidfile := some newPid },
              (newPid, funcx_process_name) :: w.procs⟩)) := by
  cases hpf : w.ep.pidfile with
  | none =>
    refine ⟨?_, ?_, ?_⟩
    · simp [start_endpoint, hdir, hpf, check_pidfile]
    · intro h; simp at h
    · intro _; simp [start_endpoint, hdir, hpf, check_pidfile]
  | some pid =>
    have hex := check_pidfile_some_pexists pid w.procs funcx_process_name
    refine ⟨?_, ?_, ?_⟩
    · simp [start_endpoint, hdir, hpf, hex]
    · intro _; simp [start_endpoint, hdir, hpf, hex]
    · intro h; exact Option.noConfusion h

/-- Witness for C1 amended: a configured endpoint with a stale pidfile
(pid 7, empty process table) is refused. -/
theorem C1_start_refuses_iff_pidfile_exists_witness :
    (start_endpoint ⟨⟨true, true, none, some 7⟩, []⟩ none "u0" 9).1
      = .refused "u0" :=
  (C1_start_refuses_iff_pidfile_exists ⟨⟨true, true, none, some 7⟩, []⟩
      none "u0" 9 rfl).1.mpr (by decide)

/- ------------------------------------------------------------------ -/
/- C4: endpoint identity precedence                                    -/
/- ------------------------------------------------------------------ -/

/-- C4: on a configured endpoint the identity used by start follows the
precedence persisted record > caller-supplied uuid > fresh random uuid,
and a second start on the state the first one left behind reuses the
same persisted `endpoint_id`. -/
theorem C4_identity_precedence (w : World) (caller : Option String)
    (fresh : String) (newPid : Nat) (hdir : w.ep.dirExists = true) :
    (∀ info, w.ep.regRecord = some info →
       (start_endpoint w caller fresh newPid).1.uuid?
         = some info.endpoint_id)
    ∧ (∀ u, w.ep.regRecord = none → caller = some u → u ≠ "" →
       (start_endpoint w caller fresh newPid).1.uuid? = some u)
    ∧ (w.ep.regRecord = none → caller = none →
       (start_endpoint w caller fresh newPid).1.uuid? = some fresh)
    ∧ (∀ info c2 f2 p2, w.ep.regRecord = some info →
       (start_endpoint (start_endpoint w caller fresh newPid).2
           c2 f2 p2).1.uuid?
         = some info.endpoint_id) := by
  refine ⟨?_, ?_, ?_, ?_⟩
  · intro info hreg
    rw [start_uuid_eq w caller fresh newPid hdir, hreg]
    rfl
  · intro u hreg hc hu
    rw [start_uuid_eq w caller fresh newPid hdir, hreg, hc]
    simp [determine_uuid, hu]
  · intro hreg hc
    rw [start_uuid_eq w caller fresh newPid hdir, hreg, hc]
    rfl
  · intro info c2 f2 p2 hreg
    have hp := start_preserves w caller fresh newPid
    rw [start_uuid_eq (start_endpoint w caller fresh newPid).2 c2 f2 p2
        (by rw [hp.1, hdir]), hp.2, hreg]
    rfl

/-- Witness for C4: with a persisted record carrying id "abc", start
reuses "abc" even though the caller supplied "zzz", and so does a second
start on the resulting state. -/
theorem C4_identity_precedence_witness :
    (start_endpoint
        ⟨⟨true, true, some ⟨"abc", "10.0.0.1", "5,6"⟩, none⟩, []⟩
        (some "zzz") "f0" 3).1.uuid? = some "abc" :=
  (C4_identity_precedence
      ⟨⟨true, true, some ⟨"abc", "10.0.0.1", "5,6"⟩, none⟩, []⟩
      (some "zzz") "f0" 3 rfl).1 ⟨"abc", "10.0.0.1", "5,6"⟩ rfl

/- ------------------------------------------------------------------ -/
/- C6: stop when signalling fails                                      -/
/- ------------------------------------------------------------------ -/

/-- C6: when the pidfile exists and the kill call on the recorded pid
raises `OSError`, stop takes the warning branch: the pidfile is forcibly
removed and the command terminates via `sys.exit(-1)`, a non-zero exit
code. -/
theorem C6_stop_signal_failure_cleanup (w : World) (env : StopEnv)
    (pid : Nat) (hpf : w.ep.pidfile = some pid)
    (hterm : env.sigtermRaises = true) :
    stop_endpoint w env
      = (.cleanupExit, { w with ep := { w.ep with pidfile := none } })
    ∧ (stop_endpoint w env).1.exitCode = -1
    ∧ (stop_endpoint w env).1.exitCode ≠ 0
    ∧ (stop_endpoint w env).2.ep.pidfile = none := by
  have h : stop_endpoint w env
      = (.cleanupExit, { w with ep := { w.ep with pidfile := none } }) := by
    simp [stop_endpoint, hpf, hterm]
  refine ⟨h, ?_, ?_, ?_⟩ <;> rw [h] <;> simp [StopResult.exitCode]

/-- Witness for C6: stopping an endpoint whose pidfile records pid 11
while the SIGTERM delivery raises ends in the cleanup branch. -/
theorem C6_stop_signal_failure_cleanup_witness :
    stop_endpoint ⟨⟨true, true, none, some 11⟩, []⟩ ⟨true, false, false⟩
      = (.cleanupExit, ⟨⟨true, true, none, none⟩, []⟩) :=
  (C6_stop_signal_failure_cleanup ⟨⟨true, true, none, some 11⟩, []⟩
      ⟨true, false, false⟩ 11 rfl rfl).1

/- ------------------------------------------------------------------ -/
/- C7: stop with no pidfile is an idempotent no-op                     -/
/- ------------------------------------------------------------------ -/

/-- C7: when `daemon.pid` is absent, stop reports "not active", raises
no error (normal return, exit code 0), changes no state, and a second
stop in a row produces the same not-active outcome. -/
theorem C7_stop_idempotent_no_pidfile (w : World) (env1 env2 : StopEnv)
    (hpf : w.ep.pidfile = none) :
    stop_endpoint w env1 = (.notActive, w)
    ∧ stop_endpoint (stop_endpoint w env1).2 env2 = (.notActive, w)
    ∧ (stop_endpoint w env1).1.exitCode = 0
    ∧ (stop_endpoint w env1).1.halts = false := by
  have h1 : stop_endpoint w env1 = (.notActive, w) := by
    simp [stop_endpoint, hpf]
  have h2 : stop_endpoint (stop_endpoint w env1).2 env2
      = (.notActive, w) := by
    rw [h1]
    simp [stop_endpoint, hpf]
  exact ⟨h1, h2, by rw [h1]; rfl, by rw [h1]; rfl⟩

/-- Witness for C7: two consecutive stops of an endpoint without a
pidfile both report not-active and leave the state unchanged. -/
theorem C7_stop_idempotent_no_pidfile_witness :
    stop_endpoint
        (stop_endpoint ⟨⟨true, true, none, none⟩, [(3, "bash")]⟩
          ⟨false, false, false⟩).2 ⟨true, true, true⟩
      = (.notActive, ⟨⟨true, true, none, none⟩, [(3, "bash")]⟩) :=
  (C7_stop_idempotent_no_pidfile ⟨⟨true, true, none, none⟩, [(3, "bash")]⟩
      ⟨false, false, false⟩ ⟨true, true, true⟩ rfl).2.1

/- ------------------------------------------------------------------ -/
/- C5: list_endpoints statuses                                         -/
/- ------------------------------------------------------------------ -/

/-- C5: every discovered endpoint directory is reported `Initialized`
when `endpoint.json` does not exist; with a registration record it is
reported `Active` exactly when `check_pidfile` on its `daemon.pid` says
active and `Inactive` otherwise, together with the `endpoint_id` read
from the record. -/
theorem C5_list_endpoints_status (sys : Sys) (n : String) (s : EpState)
    (hmem : (n, s) ∈ sys.eps) (hcfg : s.configExists = true) :
    (s.regRecord = none →
      (n, "Initialized", none) ∈ list_endpoints sys)
    ∧ (∀ info, s.regRecord = some info →
        ((check_pidfile s.pidfile sys.procs funcx_process_name).pactive
            ≠ 0 →
          (n, "Active", some info.endpoint_id) ∈ list_endpoints sys)
        ∧ ((check_pidfile s.pidfile sys.procs funcx_process_name).pactive
            = 0 →
          (n, "Inactive", some info.endpoint_id)
            ∈ list_endpoints sys)) := by
  have hf : (n, s) ∈ sys.eps.filter (fun e => e.2.configExists) :=
    List.mem_filter.mpr ⟨hmem, by simp [hcfg]⟩
  have hmap : (n, endpointStatus s sys.procs, endpointId s)
      ∈ list_endpoints sys := List.mem_map_of_mem _ hf
  refine ⟨?_, ?_⟩
  · intro hreg
    have h1 : endpointStatus s sys.procs = "Initialized" := by
      simp [endpointStatus, hreg]
    have h2 : endpointId s = none := by simp [endpointId, hreg]
    rw [h1, h2] at hmap
    exact hmap
  · intro info hreg
    have hid : endpointId s = some info.endpoint_id := by
      simp [endpointId, hreg]
    constructor
    · intro hact
      have hs : endpointStatus s sys.procs = "Active" := by
        simp [endpointStatus, hreg, hact]
      rw [hs, hid] at hmap
      exact hmap
    · intro hact
      have hs : endpointStatus s sys.procs = "Inactive" := by
        simp [endpointStatus, hreg, hact]
      rw [hs, hid] at hmap
      exact hmap

/-- Witness for C5: a directory with a registration record carrying id
"id1" and a live name-matching process on its recorded pid is listed as
Active. -/
theorem C5_list_endpoints_status_witness :
    ("ep1", "Active", some "id1")
      ∈ list_endpoints
          ⟨[("ep1", ⟨true, true, some ⟨"id1", "a", "1,2"⟩, some 4⟩)],
           [(4, "funcx-endpoint")]⟩ :=
  ((C5_list_endpoints_status
      ⟨[("ep1", ⟨true, true, some ⟨"id1", "a", "1,2"⟩, some 4⟩)],
       [(4, "funcx-endpoint")]⟩
      "ep1" ⟨true, true, some ⟨"id1", "a", "1,2"⟩, some 4⟩
      (by simp) rfl).2 ⟨"id1", "a", "1,2"⟩ rfl).1 (by decide)

/- ------------------------------------------------------------------ -/
/- C8: restart is stop followed by start                               -/
/- ------------------------------------------------------------------ -/

/-- C8: `restart_endpoint` equals the sequential composition stop
followed by start; an endpoint inactive (no pidfile) before restart is
started and fully active after; an active endpoint with a clean stop
ends with a pidfile holding the freshly assigned (different) pid; and
the composition is not atomic — the intermediate state reached after
stop alone has no pidfile and reports inactive, so a crash between the
two steps leaves the endpoint stopped. -/
theorem C8_restart_equiv_stop_then_start (w : World) (env : StopEnv)
    (fresh : String) (newPid : Nat) :
    restart_endpoint w env fresh newPid
      = stop_then_start w env fresh newPid
    ∧ (w.ep.dirExists = true → w.ep.pidfile = none →
        (restart_endpoint w env fresh newPid).2.1
          = some (.started (determine_uuid w.ep.regRecord none fresh))
        ∧ check_pidfile
            (restart_endpoint w env fresh newPid).2.2.ep.pidfile
            (restart_endpoint w env fresh newPid).2.2.procs
            funcx_process_name = ⟨1, 1⟩)
    ∧ (∀ pid, w.ep.dirExists = true → w.ep.pidfile = some pid →
        env.sigtermRaises = false → env.sigkillRaises = false →
        env.daemonCleansPidfile = true → newPid ≠ pid →
        (restart_endpoint w env fresh newPid).2.2.ep.pidfile
            = some newPid
        ∧ (restart_endpoint w env fresh newPid).2.2.ep.pidfile
            ≠ w.ep.pidfile)
    ∧ (∀ pid, w.ep.pidfile = some pid →
        env.sigtermRaises = false → env.sigkillRaises = false →
        env.daemonCleansPidfile = true →
        (stop_endpoint w env).2.ep.pidfile = none
        ∧ check_pidfile (stop_endpoint w env).2.ep.pidfile
            (stop_endpoint w env).2.procs funcx_process_name
          = ⟨0, 0⟩) := by
  refine ⟨?_, ?_, ?_, ?_⟩
  · unfold restart_endpoint stop_then_start
    rfl
  · intro hdir hpf
    have hstop : stop_endpoint w env = (.notActive, w) := by
      simp [stop_endpoint, hpf]
    have hstart : start_endpoint w none fresh newPid
        = (.started (determine_uuid w.ep.regRecord none fresh),
           ⟨{ w.ep with pidfile := some newPid },
            (newPid, funcx_process_name) :: w.procs⟩) := by
      simp [start_endpoint, hdir, hpf, check_pidfile]
    have hres : restart_endpoint w env fresh newPid
        = (.notActive,
           some (.started (determine_uuid w.ep.regRecord none fresh)),
           ⟨{ w.ep with pidfile := some newPid },
            (newPid, funcx_process_name) :: w.procs⟩) := by
      simp [restart_endpoint, hstop, StopResult.halts, hstart]
    rw [hres]
    exact ⟨rfl, check_pidfile_fresh newPid w.procs⟩
  · intro pid hdir hpf ht hk hd hne
    have hstop : stop_endpoint w env
        = (.stopped,
           ⟨{ w.ep with pidfile := none }, killProc w.procs pid⟩) := by
      simp [stop_endpoint, hpf, ht, hk, hd]
    have hstart : start_endpoint
        ⟨{ w.ep with pidfile := none }, killProc w.procs pid⟩
        none fresh newPid
        = (.started (determine_uuid w.ep.regRecord none fresh),
           ⟨{ w.ep with pidfile := some newPid },
            (newPid, funcx_process_name) :: killProc w.procs pid⟩) := by
      simp [start_endpoint, hdir, check_pidfile]
    have hres : restart_endpoint w env fresh newPid
        = (.stopped,
           some (.started (determine_uuid w.ep.regRecord none fresh)),
           ⟨{ w.ep with pidfile := some newPid },
            (newPid, funcx_process_name) :: killProc w.procs pid⟩) := by
      simp [restart_endpoint, hstop, StopResult.halts, hstart]
    rw [hres, hpf]
    exact ⟨rfl, by simp [hne]⟩
  · intro pid hpf ht hk hd
    have hstop : stop_endpoint w env
        = (.stopped,
           ⟨{ w.ep with pidfile := none }, killProc w.procs pid⟩) := by
      simp [stop_endpoint, hpf, ht, hk, hd]
    rw [hstop]
    exact ⟨rfl, rfl⟩

/-- Witness for C8: restarting a configured endpoint with no pidfile
yields a started endpoint with uuid the fresh one. -/
theorem C8_restart_equiv_stop_then_start_witness :
    (restart_endpoint ⟨⟨true, true, none, none⟩, []⟩
        ⟨false, false, true⟩ "f9" 5).2.1 = some (.started "f9") :=
  ((C8_restart_equiv_stop_then_start ⟨⟨true, true, none, none⟩, []⟩
      ⟨false, false, true⟩ "f9" 5).2.1 rfl rfl).1

/- ------------------------------------------------------------------ -/
/- C9: delete of an active endpoint                                    -/
/- ------------------------------------------------------------------ -/

/-- C9: with confirmation given or bypassed via -y, deleting an endpoint
whose pidfile exists first invokes stop (which kills the recorded pid)
and then removes the entire endpoint directory, after which list no
longer reports that endpoint name. -/
theorem C9_delete_active_endpoint (sys : Sys) (name : String)
    (env : StopEnv) (pid : Nat)
    (hep : (readEp sys.eps name).pidfile = some pid)
    (ht : env.sigtermRaises = false) (hk : env.sigkillRaises = false)
    (hd : env.daemonCleansPidfile = true)
    (confirmAnswer autoconfirm : Bool)
    (hconf : autoconfirm = true ∨ confirmAnswer = true) :
    (delete_endpoint sys name env confirmAnswer autoconfirm).1 = .deleted
    ∧ (delete_endpoint sys name env confirmAnswer autoconfirm).2.procs
        = killProc sys.procs pid
    ∧ (delete_endpoint sys name env confirmAnswer autoconfirm).2.eps
        = rmtree sys.eps name
    ∧ ∀ rec ∈ list_endpoints
          (delete_endpoint sys name env confirmAnswer autoconfirm).2,
        rec.1 ≠ name := by
  have hgate : (!autoconfirm && !confirmAnswer) = false := by
    rcases hconf with h | h <;> simp [h]
  have hstop : stop_endpoint ⟨readEp sys.eps name, sys.procs⟩ env
      = (.stopped,
         ⟨{ readEp sys.eps name with pidfile := none },
          killProc sys.procs pid⟩) := by
    simp [stop_endpoint, hep, ht, hk, hd]
  have hdel : delete_endpoint sys name env confirmAnswer autoconfirm
      = (.deleted, ⟨rmtree sys.eps name, killProc sys.procs pid⟩) := by
    unfold delete_endpoint
    rw [hgate]
    simp [hep, hstop, StopResult.halts]
  refine ⟨by rw [hdel], by rw [hdel], by rw [hdel], ?_⟩
  intro rec hrec
  rw [hdel] at hrec
  unfold list_endpoints at hrec
  obtain ⟨e, he, hfe⟩ := List.mem_map.mp hrec
  have he2 : e ∈ rmtree sys.eps name := (List.mem_filter.mp he).1
  have hbe : (e.1 != name) = true := (List.mem_filter.mp he2).2
  have hne : e.1 ≠ name := by simpa using hbe
  rw [← hfe]
  exact hne

/-- Witness for C9: deleting the active endpoint e1 (live matching
process on pid 4) with -y removes it from the tree. -/
theorem C9_delete_active_endpoint_witness :
    (delete_endpoint
        ⟨[("e1", ⟨true, true, some ⟨"id1", "a", "1,2"⟩, some 4⟩)],
         [(4, "funcx-endpoint")]⟩
        "e1" ⟨false, false, true⟩ false true).1 = .deleted :=
  (C9_delete_active_endpoint
      ⟨[("e1", ⟨true, true, some ⟨"id1", "a", "1,2"⟩, some 4⟩)],
       [(4, "funcx-endpoint")]⟩
      "e1" ⟨false, false, true⟩ 4 (by decide) rfl rfl rfl
      false true (Or.inl rfl)).1

/- ------------------------------------------------------------------ -/
/- C10: the mock registration writes only after a 200                  -/
/- ------------------------------------------------------------------ -/

/-- C10: `register_with_hub` persists the JSON body to `endpoint.json`
only on an HTTP 200 response; on any non-200 status it raises
`RegistrationError` before the write and leaves any existing
`endpoint.json` unchanged; and on a connection error it terminates the
process (`exit(-1)`) without writing. -/
theorem C10_register_with_hub_atomic (s : EpState) (ip : Nat) :
    register_with_hub .connError ip s = (.exitedNonZero, s)
    ∧ (∀ st reason body, st ≠ 200 →
        register_with_hub (.resp st reason body) ip s
          = (.raisedRegistrationError reason, s))
    ∧ (∀ reason body,
        register_with_hub (.resp 200 reason body) ip s
          = (.ok body, { s with regRecord := some body })) := by
  refine ⟨rfl, ?_, ?_⟩
  · intro st reason body hst
    simp [register_with_hub, hst]
  · intro reason body
    simp [register_with_hub]

/-- Witness for C10: a 500 response raises the registration error and
leaves the state untouched. -/
theorem C10_register_with_hub_atomic_witness :
    register_with_hub
        (.resp 500 "Internal Server Error" ⟨"i", "a", "1"⟩) 0
        ⟨true, true, none, none⟩
      = (.raisedRegistrationError "Internal Server Error",
         ⟨true, true, none, none⟩) :=
  (C10_register_with_hub_atomic ⟨true, true, none, none⟩ 0).2.1
    500 "Internal Server Error" ⟨"i", "a", "1"⟩ (by decide)

/- ------------------------------------------------------------------ -/
/- C2: the registration retry policy                                   -/
/- ------------------------------------------------------------------ -/

/-- C2: `register_endpoint` is wrapped in a fixed-delay retry policy with
delay 5 and an unbounded try count (`tries = -1`): transient failures of
the client call are retried (each after a 5-unit sleep) and never
surface past the retry boundary — as soon as some attempt succeeds the
wrapper returns its registration info and writes it to `endpoint.json` —
whereas the `RegistrationError` raised for an explicit non-success
response (in the unwrapped `register_with_hub` path) is terminal:
it propagates to the caller from the single attempt, with no retry. -/
theorem C2_registration_retry (calls : Nat → Except String RegInfo)
    (s : EpState) (k : Nat) (info : RegInfo) :
    register_endpoint_retry_policy = ⟨5, -1, 1⟩
    ∧ ((∀ j, j < k → ∃ e, calls j = .error e) → calls k = .ok info →
        ∀ fuel, k < fuel →
          register_endpoint_retried calls s fuel
            = some ((info, { s with regRecord := some info }), 5 * k))
    ∧ (∀ st reason body ip, st ≠ 200 →
        register_with_hub (.resp st reason body) ip s
          = (.raisedRegistrationError reason, s)) := by
  refine ⟨rfl, ?_, ?_⟩
  · intro hfail hok fuel hfuel
    unfold register_endpoint_retried
    have h := retryLoop_eventually
      (fun j => register_endpoint (calls j) s)
      register_endpoint_retry_policy.delay
      (info, { s with regRecord := some info }) k 0 0 fuel
      (fun j hj => by
        obtain ⟨e, he⟩ := hfail j hj
        exact ⟨e, by simp [register_endpoint, Nat.zero_add, he]⟩)
      (by simp [register_endpoint, Nat.zero_add, hok])
      hfuel
    rw [h]
    simp [register_endpoint_retry_policy]
  · intro st reason body ip hst
    simp [register_with_hub, hst]

/-- Witness for C2: one transient connection failure followed by a
successful attempt returns the registration info after a single 5-unit
sleep, writing the record. -/
theorem C2_registration_retry_witness :
    register_endpoint_retried
        (fun j => if j = 0 then .error "connection refused"
                  else .ok ⟨"id", "a", "1"⟩)
        ⟨true, true, none, none⟩ 2
      = some ((⟨"id", "a", "1"⟩, ⟨true, true, some ⟨"id", "a", "1"⟩, none⟩),
              5) :=
  (C2_registration_retry
      (fun j => if j = 0 then .error "connection refused"
                else .ok ⟨"id", "a", "1"⟩)
      ⟨true, true, none, none⟩ 1 ⟨"id", "a", "1"⟩).2.1
    (fun j hj => ⟨"connection refused", by
      have hj0 : j = 0 := by omega
      rw [hj0]
      rfl⟩)
    rfl 2 (by omega)

end FuncxEndpoint
